import Mathlib

/-!
Verification of the directive-processing core of the HJWasm assembler front
end (`cpumodel.c`): the `.MODEL` directive handler, the CPU/FPU state merger
`SetCPU`, the model finalizer `SetModel`, and the keyword matcher `FindToken`.

The C source is embedded shallowly: the process-wide `ModuleInfo` structure
becomes an explicit state record threaded through each function, external
collaborators (symbol table, segment manager, line queue, listing) are
represented by their visible effects (a list of created predefined symbols)
or noted as out of scope, and the bitmask arithmetic of `curr_cpu` is done
on `Nat` with explicit masks.  Enumeration constants that live in the
repository's `globals.h` (absent from the given sources) are modelled from
the specification's description of the sub-fields and are marked as such.
-/

namespace CpuModel

/-! ## Enumeration constants

`MODEL_xxx` values are fixed by the comment in `cpumodel.c`:
`TINY=1, SMALL=2, COMPACT=3, MEDIUM=4, LARGE=5, HUGE=6, FLAT=7`
(0 is `MODEL_NONE`). -/

def MODEL_NONE : Nat := 0
def MODEL_TINY : Nat := 1
def MODEL_SMALL : Nat := 2
def MODEL_COMPACT : Nat := 3
def MODEL_MEDIUM : Nat := 4
def MODEL_LARGE : Nat := 5
def MODEL_HUGE : Nat := 6
def MODEL_FLAT : Nat := 7

/-- C source `cpumodel.c`: attribute-category flags. -/
def INIT_LANG : Nat := 0x1

/-- C source `cpumodel.c`: attribute-category flag for stack distance. -/
def INIT_STACK : Nat := 0x2

/-- C source `cpumodel.c`: attribute-category flag for operating system. -/
def INIT_OS : Nat := 0x4

/-- Modelled from the spec: `cpuMask` is a bitmask of disjoint sub-fields —
FPU level, protected-mode flag, CPU level, extension set (§3).  The numeric
layout lives in `globals.h`, which is not among the given sources; the
values below realize the spec's disjoint-sub-field description.  FPU field:
`none` (the `.NO87` state). -/
def P_NO87 : Nat := 0x1
def P_87 : Nat := 0x2
def P_287 : Nat := 0x3
def P_387 : Nat := 0x4
def P_FPU_MASK : Nat := 0x7
def P_PM : Nat := 0x8
def P_86 : Nat := 0x00
def P_186 : Nat := 0x10
def P_286 : Nat := 0x20
def P_386 : Nat := 0x30
def P_486 : Nat := 0x40
def P_586 : Nat := 0x50
def P_686 : Nat := 0x60
def P_64 : Nat := 0x70
def P_CPU_MASK : Nat := 0xF0
def P_MMX : Nat := 0x100
def P_K3D : Nat := 0x200
def P_SSE1 : Nat := 0x400
def P_SSE2 : Nat := 0x800
def P_SSE3 : Nat := 0x1000
def P_SSSE3 : Nat := 0x2000
def P_SSE4 : Nat := 0x4000

/-- Modelled from the spec: the full extension set MMX/3D-Now/SSE1-4 (§3,
§4.4 step 3). -/
def P_EXT_ALL : Nat :=
  P_MMX ||| P_K3D ||| P_SSE1 ||| P_SSE2 ||| P_SSE3 ||| P_SSSE3 ||| P_SSE4

/-- Modelled from the spec: the extension sub-field of `cpuMask` (§3). -/
def P_EXT_MASK : Nat := P_EXT_ALL

/-- Modelled from the spec: Masm-compatible capability bits making up
`cpuCompatValue` (§4.4 step 5); layout from `globals.h`, absent from the
given sources. -/
def M_8086 : Nat := 0x01
def M_186 : Nat := 0x02
def M_286 : Nat := 0x04
def M_386 : Nat := 0x08
def M_486 : Nat := 0x10
def M_586 : Nat := 0x20
def M_686 : Nat := 0x40
def M_PROT : Nat := 0x80
def M_8087 : Nat := 0x100
def M_287 : Nat := 0x400
def M_387 : Nat := 0x800

/-- Modelled from the spec: `defaultOffsetSize` ranges over widths
`16/32/64` (§3); the C `USE16/USE32/USE64` tags from `globals.h` are
modelled directly as those widths. -/
def USE16 : Nat := 16
def USE32 : Nat := 32
def USE64 : Nat := 64

/-- Modelled from the spec: stack distance values, `{NEAR, FAR}` (§3);
0 is the unset state. -/
def STACK_NEAR : Nat := 1
def STACK_FAR : Nat := 2

/-- Modelled from the spec: operating-system values in the order the spec
lists them, `{DOS, OS2}` (§3). -/
def OPSYS_DOS : Nat := 0
def OPSYS_OS2 : Nat := 1

/-- Modelled from the spec: calling-convention tags (§3 lists C, PASCAL,
STDCALL, FASTCALL, SYSCALL, VECTORCALL, SYSV-call, REGCALL); numeric values
live in `globals.h`, absent from the given sources. -/
def LANG_NONE : Nat := 0
def LANG_C : Nat := 1
def LANG_SYSCALL : Nat := 2
def LANG_STDCALL : Nat := 3
def LANG_PASCAL : Nat := 4
def LANG_FORTRAN : Nat := 5
def LANG_BASIC : Nat := 6
def LANG_FASTCALL : Nat := 7
def LANG_VECTORCALL : Nat := 8
def LANG_SYSVCALL : Nat := 9
def LANG_REGCALL : Nat := 10

/-- Modelled from the spec: fast-call ABI variants selected by the model
finalizer (§4.3). -/
def FCT_MSC : Nat := 0
def FCT_WIN64 : Nat := 1
def FCT_SYSV64 : Nat := 2

/-- Modelled from the spec: output formats recognized by the core (§4.2
step 4, §4.3); only the identities of COFF/ELF/MAC matter here. -/
def OFORMAT_BIN : Nat := 0
def OFORMAT_OMF : Nat := 1
def OFORMAT_COFF : Nat := 2
def OFORMAT_ELF : Nat := 3
def OFORMAT_MAC : Nat := 4

/-- Modelled from the spec: the first pass of the multi-pass driver (§5). -/
def PASS_1 : Nat := 0

/-- Modelled from the spec: `@CodeSize` is a pure function of the model
(§3); the mask selects the far-code models MEDIUM, LARGE and HUGE
(bits 4, 5, 6), as the original header's `SIZE_CODEPTR` does. -/
def SIZE_CODEPTR : Nat := 0x70

/-- C source `cpumodel.c`: `offsettype` values `OT_GROUP`/`OT_FLAT`
(numeric identity modelled; only distinctness is used). -/
def OT_GROUP : Nat := 0
def OT_FLAT : Nat := 1

/-! ## Bit-clearing helper

C's `x &= ~mask` clears the `mask` bits of `x`.  On `Nat` this is
`x ^^^ (x &&& mask)`: the bits of `x &&& mask` are exactly the bits of `x`
inside `mask`, and xoring them away clears them — for every bit width. -/

def andn (a m : Nat) : Nat := a ^^^ (a &&& m)

theorem testBit_andn (a m i : Nat) :
    (andn a m).testBit i = (a.testBit i && !(m.testBit i)) := by
  simp only [andn, Nat.testBit_xor, Nat.testBit_land]
  cases a.testBit i <;> cases m.testBit i <;> rfl

/-- Bitwise AND distributes over OR on `Nat`. -/
theorem land_lor_dist (a b c : Nat) :
    (a ||| b) &&& c = (a &&& c) ||| (b &&& c) := by
  apply Nat.eq_of_testBit_eq
  intro i
  simp only [Nat.testBit_land, Nat.testBit_lor]
  cases a.testBit i <;> cases b.testBit i <;> cases c.testBit i <;> rfl

/-- Clearing bits outside of `c` does not change the `c` field. -/
theorem andn_land_of_disjoint {m c : Nat} (a : Nat) (h : m &&& c = 0) :
    (andn a m) &&& c = a &&& c := by
  apply Nat.eq_of_testBit_eq
  intro i
  have hb : (m.testBit i && c.testBit i) = false := by
    have := congrArg (fun n => Nat.testBit n i) h
    simpa [Nat.testBit_land] using this
  simp only [Nat.testBit_land, testBit_andn]
  cases hm : m.testBit i <;> cases hc : c.testBit i <;>
    cases a.testBit i <;> simp_all

/-- Clearing all bits of `m` empties any field `c` contained in `m`. -/
theorem andn_land_of_subset {m c : Nat} (a : Nat) (h : m &&& c = c) :
    (andn a m) &&& c = 0 := by
  apply Nat.eq_of_testBit_eq
  intro i
  have hb : (m.testBit i && c.testBit i) = c.testBit i := by
    have := congrArg (fun n => Nat.testBit n i) h
    simpa [Nat.testBit_land] using this
  simp only [Nat.testBit_land, testBit_andn, Nat.zero_testBit]
  cases hm : m.testBit i <;> cases hc : c.testBit i <;>
    cases a.testBit i <;> simp_all

/-- ORing in bits disjoint from `c` does not change the `c` field. -/
theorem lor_land_of_disjoint {b c : Nat} (a : Nat) (h : b &&& c = 0) :
    (a ||| b) &&& c = a &&& c := by
  rw [land_lor_dist, h, Nat.or_zero]

/-- The `c` field of `a &&& b` vanishes when `b` and `c` are disjoint. -/
theorem land_land_of_disjoint {b c : Nat} (a : Nat) (h : b &&& c = 0) :
    (a &&& b) &&& c = 0 := by
  rw [Nat.and_assoc, h, Nat.and_zero]

/-- Restricting `a &&& b` to a field `c` contained in `b` drops `b`. -/
theorem land_land_of_subset {b c : Nat} (a : Nat) (h : b &&& c = c) :
    (a &&& b) &&& c = a &&& c := by
  rw [Nat.and_assoc, h]

/-- ORing a constant into a value saturates that constant's field. -/
theorem lor_land_self (a c : Nat) : (a ||| c) &&& c = c := by
  apply Nat.eq_of_testBit_eq
  intro i
  simp only [Nat.testBit_land, Nat.testBit_lor]
  cases a.testBit i <;> cases c.testBit i <;> rfl

/-! ## Tokens and keyword matching -/

/-- A statement token as delivered by the external tokenizer (§6): the
end-of-statement marker `T_FINAL`, a comma `T_COMMA`, or any other token
carrying its source text (`string_ptr`). -/
inductive Tok where
  | final : Tok
  | comma : Tok
  | id : String → Tok
  deriving DecidableEq, Repr

/-- The `string_ptr` field of a token (a comma's text is the comma itself;
`T_FINAL` carries no text). -/
def Tok.str : Tok → String
  | .final => ""
  | .comma => ","
  | .id s => s

/-- Indexing into the token array.  The C tokenizer guarantees a `T_FINAL`
sentinel at index `Token_Count`, which the out-of-range default mirrors. -/
def tokAt (ts : List Tok) (i : Nat) : Tok := ts.getD i Tok.final

/-- ASCII lower-casing as C's `tolower` does on the characters appearing in
directive keywords. -/
def lowerChar (c : Char) : Char :=
  if 'A' ≤ c ∧ c ≤ 'Z' then Char.ofNat (c.toNat + 32) else c

/-- Case-insensitive string equality, the `_stricmp(a, b) == 0` test. -/
def stricmpEq (a b : String) : Bool :=
  a.data.map lowerChar == b.data.map lowerChar

/-- C source `cpumodel.c` `FindToken`: linear scan of `table` for a
case-insensitive match of `token`, returning the zero-based index of the
first match, or `-1` when there is none.  The C `size` argument is the
length of the list. -/
def FindToken (token : String) (table : List String) : Int :=
  match table with
  | [] => -1
  | t :: rest =>
      if stricmpEq t token then 0
      else
        match FindToken token rest with
        | r => if r < 0 then -1 else r + 1

/-- C source `cpumodel.c`: the model keyword table, sorted like the
`MODEL_xxx` enumeration. -/
def ModelToken : List String :=
  ["TINY", "SMALL", "COMPACT", "MEDIUM", "LARGE", "HUGE", "FLAT"]

/-- C source `cpumodel.c` `struct typeinfo`: value assigned to a model
attribute keyword plus its category flag. -/
structure typeinfo where
  value : Nat
  init : Nat
  deriving DecidableEq, Repr

/-- C source `cpumodel.c`: the model attribute keyword table. -/
def ModelAttr : List String :=
  ["NEARSTACK", "FARSTACK", "OS_OS2", "OS_DOS"]

/-- C source `cpumodel.c`: values and categories for `ModelAttr`, in table
order: `STACK_NEAR`, `STACK_FAR`, `OPSYS_DOS`, `OPSYS_OS2`. -/
def ModelAttrValue : List typeinfo :=
  [⟨STACK_NEAR, INIT_STACK⟩, ⟨STACK_FAR, INIT_STACK⟩,
   ⟨OPSYS_DOS, INIT_OS⟩, ⟨OPSYS_OS2, INIT_OS⟩]

/-! ## Module configuration and environment -/

/-- The output-format option records selectable by the `.MODEL` handler:
the module's initial default record, or one of the two 64-bit records
`coff64_fmtopt` / `elf64_fmtopt` defined in `cpumodel.c`. -/
inductive FmtOpt where
  | dflt : FmtOpt
  | coff64 : FmtOpt
  | elf64 : FmtOpt
  deriving DecidableEq, Repr

/-- The fields of the process-wide `ModuleInfo` structure read or written
by `cpumodel.c`. -/
structure ModuleInfo where
  model : Nat
  langtype : Nat
  distance : Nat
  ostype : Nat
  curr_cpu : Nat
  cpu : Nat
  defOfssize : Nat
  offsettype : Nat
  fctype : Nat
  fmtopt : FmtOpt
  deriving DecidableEq, Repr

/-- Ambient state owned by collaborators: the pass counter `Parse_Pass`,
whether a segment is currently open (`CurrSeg != NULL`), and the selected
output format `Options.output_format`. -/
structure Env where
  pass : Nat
  currSegOpen : Bool
  oformat : Nat
  deriving DecidableEq, Repr

/-- A predefined numeric constant created in the external symbol table
(`AddPredefinedConstant` / `CreateVariable`), as a name/value pair. -/
abbrev Sym := String × Nat

/-- C source `cpumodel.c` `SetDefaultOfssize`: write the module-wide
default offset size only when no segment is currently open.  The call to
the collaborator `SetOfssize()` has no effect on the embedded fields. -/
def SetDefaultOfssize (size : Nat) (env : Env) (mi : ModuleInfo) :
    ModuleInfo :=
  if env.currSegOpen then mi else { mi with defOfssize := size }

/-- C source `cpumodel.c` `SetModel`: value of the `@DataSize` predefined
constant (the `switch (ModuleInfo.model)` block). -/
def dataSizeValue (model : Nat) : Nat :=
  if model = MODEL_COMPACT ∨ model = MODEL_LARGE then 1
  else if model = MODEL_HUGE then 2
  else 0

/-- C source `cpumodel.c` `SetModel`: value of the `@CodeSize` predefined
constant (`SIZE_CODEPTR & (1 << model)`). -/
def codeSizeValue (model : Nat) : Nat :=
  if SIZE_CODEPTR &&& (1 <<< model) ≠ 0 then 1 else 0

/-- C source `cpumodel.c` `SetModel`, configuration effects (the part of
the function before the `Parse_Pass != PASS_1` early return): for FLAT,
flat offset type, default offset size by CPU level, and the 64-bit
fast-call ABI override; group offset type otherwise.  Collaborator calls
with no effect on the embedded state — `DefineFlatGroup`,
`ModelSimSegmInit`, `ModelAssumeInit`, listing output, `RunLineQueue` —
are outside the embedding. -/
def setModelCfg (env : Env) (mi : ModuleInfo) : ModuleInfo :=
  if mi.model = MODEL_FLAT then
    let mi := { mi with offsettype := OT_FLAT }
    let mi := SetDefaultOfssize
      (if mi.curr_cpu &&& P_CPU_MASK ≥ P_64 then USE64 else USE32) env mi
    if mi.curr_cpu &&& P_CPU_MASK = P_64 then
      let mi :=
        if (env.oformat = OFORMAT_ELF ∨ env.oformat = OFORMAT_MAC) ∧
           (mi.langtype = LANG_SYSVCALL ∨ mi.langtype = LANG_REGCALL ∨
            mi.langtype = LANG_SYSCALL) then
          { mi with fctype := FCT_SYSV64 }
        else mi
      if env.oformat = OFORMAT_COFF ∧
         (mi.langtype = LANG_FASTCALL ∨ mi.langtype = LANG_VECTORCALL ∨
          mi.langtype = LANG_REGCALL) then
        { mi with fctype := FCT_WIN64 }
      else mi
    else mi
  else { mi with offsettype := OT_GROUP }

/-- C source `cpumodel.c` `SetModel`, first-pass symbol creation: the
predefined numeric constants recomputed from the configuration.  The text
symbols `@code`/`@data`/`@stack` (whose values come from the segment
manager) and the PE-header trigger are collaborator effects outside the
embedding. -/
def setModelSyms (env : Env) (mi : ModuleInfo) : List Sym :=
  if env.pass ≠ PASS_1 then []
  else
    [("@CodeSize", codeSizeValue mi.model),
     ("@DataSize", dataSizeValue mi.model),
     ("@Model", mi.model),
     ("@Interface", mi.langtype)] ++
    (if mi.defOfssize = USE64 then [("@ReservedStack", 0)] else [])

/-- C source `cpumodel.c` `SetModel`: the model finalizer — configuration
effects followed by first-pass symbol creation. -/
def SetModel (env : Env) (mi : ModuleInfo) : ModuleInfo × List Sym :=
  let mi := setModelCfg env mi
  (mi, setModelSyms env mi)

/-! ## The CPU/FPU state merger `SetCPU`

The body of the C function is split into one definition per block, applied
in source order; `SetCPU` composes them. -/

/-- C source `cpumodel.c` `SetCPU`, first block: on a CPU-level request
(`newcpu == P_86 || (newcpu & P_CPU_MASK)`) clear and re-set the CPU-level
and protected-mode bits, then, when the request carries no FPU sub-field
and `.NO87` is not active, re-derive the default FPU level from the new
CPU level. -/
def cpuStep1 (newcpu cc : Nat) : Nat :=
  if newcpu = P_86 ∨ newcpu &&& P_CPU_MASK ≠ 0 then
    let cc := andn cc (P_CPU_MASK ||| P_PM)
    let cc := cc ||| (newcpu &&& (P_CPU_MASK ||| P_PM))
    if cc &&& P_FPU_MASK ≠ P_NO87 ∧ newcpu &&& P_FPU_MASK = 0 then
      let cc := andn cc P_FPU_MASK
      if cc &&& P_CPU_MASK < P_286 then cc ||| P_87
      else if cc &&& P_CPU_MASK < P_386 then cc ||| P_287
      else cc ||| P_387
    else cc
  else cc

/-- C source `cpumodel.c` `SetCPU`, second block: an explicit FPU request
overwrites the FPU sub-field. -/
def cpuStep2 (newcpu cc : Nat) : Nat :=
  if newcpu &&& P_FPU_MASK ≠ 0 then
    andn cc P_FPU_MASK ||| (newcpu &&& P_FPU_MASK)
  else cc

/-- C source `cpumodel.c` `SetCPU`, third block: a 64-bit CPU request
force-enables every extension bit. -/
def cpuStep3 (newcpu cc : Nat) : Nat :=
  if newcpu &&& P_CPU_MASK = P_64 then cc ||| P_EXT_ALL else cc

/-- C source `cpumodel.c` `SetCPU`, fourth block: an explicit extension
request overwrites the extension sub-field. -/
def cpuStep4 (newcpu cc : Nat) : Nat :=
  if newcpu &&& P_EXT_MASK ≠ 0 then
    andn cc P_EXT_MASK ||| (newcpu &&& P_EXT_MASK)
  else cc

/-- C source `cpumodel.c` `SetCPU`: the Masm-compatible `@Cpu` value
derived from the merged mask (the two `switch (temp)` blocks plus the
protected-mode bit). -/
def masmCpuValue (cc : Nat) : Nat :=
  let lvl := cc &&& P_CPU_MASK
  let v :=
    if lvl = P_186 then M_8086 ||| M_186
    else if lvl = P_286 then M_8086 ||| M_186 ||| M_286
    else if lvl = P_386 then M_8086 ||| M_186 ||| M_286 ||| M_386
    else if lvl = P_486 then M_8086 ||| M_186 ||| M_286 ||| M_386 ||| M_486
    else if lvl = P_586 then
      M_8086 ||| M_186 ||| M_286 ||| M_386 ||| M_486 ||| M_586
    else if lvl = P_64 ∨ lvl = P_686 then
      M_8086 ||| M_186 ||| M_286 ||| M_386 ||| M_486 ||| M_686
    else M_8086
  let v := if cc &&& P_PM ≠ 0 then v ||| M_PROT else v
  let f := cc &&& P_FPU_MASK
  if f = P_87 then v ||| M_8087
  else if f = P_287 then v ||| M_8087 ||| M_287
  else if f = P_387 then v ||| M_8087 ||| M_287 ||| M_387
  else v

/-- C source `cpumodel.c` `SetCPU`: merge the requested capability mask
into `curr_cpu`, recompute the Masm-compatible `cpu` value, derive the
default offset size when no model is set, and (re)create the `@Cpu`
predefined constant.  Never fails (the C function always returns
`NOT_ERROR`). -/
def SetCPU (newcpu : Nat) (env : Env) (mi : ModuleInfo) :
    ModuleInfo × List Sym :=
  let cc := cpuStep4 newcpu (cpuStep3 newcpu (cpuStep2 newcpu
    (cpuStep1 newcpu mi.curr_cpu)))
  let mi := { mi with curr_cpu := cc, cpu := masmCpuValue cc }
  let mi :=
    if mi.model = MODEL_NONE then
      if cc &&& P_CPU_MASK ≥ P_64 then SetDefaultOfssize USE64 env mi
      else
        SetDefaultOfssize
          (if cc &&& P_CPU_MASK ≥ P_386 then USE32 else USE16) env mi
    else mi
  (mi, [("@Cpu", mi.cpu)])

/-! ## The `.MODEL` directive handler -/

/-- Diagnostics emitted by the handler; `syntaxErrorEx` carries the index
of the offending token (the C code passes its `string_ptr`/`tokpos`). -/
inductive DirErr where
  | expectedMemoryModel : DirErr
  | syntaxErrorEx : Nat → DirErr
  | invalidModelParamForFlat : DirErr
  | notAcceptedInCurrentCpuMode : DirErr
  deriving DecidableEq, Repr

/-- Non-fatal diagnostics emitted by the handler. -/
inductive Warn where
  | modelAlreadyDeclared : Warn
  deriving DecidableEq, Repr

/-- Modelled from the spec: the external language-type parser (§6)
resolves a token to a calling-convention tag or reports no match; the
recognized keywords are the conventions of §3.  On success the C
`GetLangType` consumes the token (the caller advances `i`). -/
def langKeywords : List (String × Nat) :=
  [("C", LANG_C), ("SYSCALL", LANG_SYSCALL), ("STDCALL", LANG_STDCALL),
   ("PASCAL", LANG_PASCAL), ("FORTRAN", LANG_FORTRAN),
   ("BASIC", LANG_BASIC), ("FASTCALL", LANG_FASTCALL),
   ("VECTORCALL", LANG_VECTORCALL), ("SYSVCALL", LANG_SYSVCALL),
   ("REGCALL", LANG_REGCALL)]

/-- Modelled from the spec: lookup wrapper for the language-type parser. -/
def getLangType (t : Tok) : Option Nat :=
  match t with
  | .id s => (langKeywords.find? (fun p => stricmpEq p.1 s)).map (·.2)
  | _ => none

/-- The locals of `ModelDirective`'s attribute loop: the scan index `i`,
the category bitmask `init`, and the resolved attribute values. -/
structure LoopState where
  i : Nat
  init : Nat
  language : Nat
  distance : Nat
  ostype : Nat
  deriving DecidableEq, Repr

/-- C source `cpumodel.c` `ModelDirective`, the
`while (i < Token_Count - 1 && tokenarray[i].token == T_COMMA)` attribute
loop.  `fuel` bounds the iteration count; since `i` strictly increases
each iteration and the guard requires `i < tc - 1`, `fuel = tc` is always
sufficient and exhaustion coincides with loop exit. -/
def attrLoop (fuel : Nat) (model : Nat) (tc : Nat) (ts : List Tok)
    (s : LoopState) : Except DirErr LoopState :=
  match fuel with
  | 0 => .ok s
  | fuel + 1 =>
    if s.i < tc - 1 ∧ tokAt ts s.i = Tok.comma then
      let i := s.i + 1
      if tokAt ts i = Tok.comma then
        -- empty slot: fall through to the next guard test
        attrLoop fuel model tc ts { s with i := i }
      else
        match getLangType (tokAt ts i) with
        | some lang =>
          -- initv = INIT_LANG; GetLangType consumed the token
          let s := { s with i := i + 1, language := lang }
          if INIT_LANG &&& s.init ≠ 0 then .ok { s with i := s.i - 1 }
          else attrLoop fuel model tc ts { s with init := s.init ||| INIT_LANG }
        | none =>
          let index := FindToken (tokAt ts i).str ModelAttr
          if index < 0 then .ok { s with i := i }
          else
            let ti := ModelAttrValue.getD index.toNat ⟨0, 0⟩
            if ti.init = INIT_STACK ∧ model = MODEL_FLAT then
              .error .invalidModelParamForFlat
            else
              let s :=
                if ti.init = INIT_STACK then { s with distance := ti.value }
                else if ti.init = INIT_OS then { s with ostype := ti.value }
                else s
              let s := { s with i := i + 1 }
              if ti.init &&& s.init ≠ 0 then .ok { s with i := s.i - 1 }
              else attrLoop fuel model tc ts { s with init := s.init ||| ti.init }
    else .ok s

/-- Outcome of one `ModelDirective` invocation: the returned code
(`none` = `NOT_ERROR`), the updated configuration, the non-fatal warnings
emitted, and the predefined numeric constants created. -/
structure MDResult where
  err : Option DirErr
  mi : ModuleInfo
  warns : List Warn
  syms : List Sym
  deriving DecidableEq, Repr

/-- C source `cpumodel.c` `ModelDirective`: the non-fatal
`MODEL_DECLARED_ALREADY` warning emitted when a model keyword resolves
while a model is already set. -/
def mdWarns (mi : ModuleInfo) : List Warn :=
  if mi.model ≠ MODEL_NONE then [Warn.modelAlreadyDeclared] else []

/-- C source `cpumodel.c` `ModelDirective`, the commit block after all
checks have passed: select the 64-bit format-option record for FLAT on a
64-bit CPU, then write `model` and whichever of
`langtype`/`distance`/`ostype` were resolved (per the `init` bits). -/
def commitModel (model : Nat) (s : LoopState) (env : Env)
    (mi : ModuleInfo) : ModuleInfo :=
  let mi :=
    if model = MODEL_FLAT ∧ mi.curr_cpu &&& P_CPU_MASK ≥ P_64 then
      if env.oformat = OFORMAT_COFF then { mi with fmtopt := .coff64 }
      else if env.oformat = OFORMAT_ELF then { mi with fmtopt := .elf64 }
      else mi
    else mi
  let mi := { mi with model := model }
  let mi :=
    if s.init &&& INIT_LANG ≠ 0 then { mi with langtype := s.language }
    else mi
  let mi :=
    if s.init &&& INIT_STACK ≠ 0 then { mi with distance := s.distance }
    else mi
  if s.init &&& INIT_OS ≠ 0 then { mi with ostype := s.ostype } else mi

/-- C source `cpumodel.c` `ModelDirective`: the `.MODEL` handler.  `i0` is
the index of the directive token, `tc` is `Token_Count` (the index of the
`T_FINAL` sentinel in `ts`).  On passes after the first with a model
already set it only re-runs `SetModel`; otherwise it parses the model
keyword and attributes, validates FLAT against the CPU level, and commits
the configuration.  `SetModelDefaultSegNames` is a collaborator with no
effect on the embedded state. -/
def ModelDirective (i0 tc : Nat) (ts : List Tok) (env : Env)
    (mi : ModuleInfo) : MDResult :=
  if env.pass ≠ PASS_1 ∧ mi.model ≠ MODEL_NONE then
    let r := SetModel env mi
    ⟨none, r.1, [], r.2⟩
  else
    let i := i0 + 1
    if tokAt ts i = Tok.final then ⟨some .expectedMemoryModel, mi, [], []⟩
    else
      let index := FindToken (tokAt ts i).str ModelToken
      if index ≥ 0 then
        let model := index.toNat + 1
        match attrLoop tc model tc ts ⟨i + 1, 0, LANG_NONE, 0, 0⟩ with
        | .error e => ⟨some e, mi, mdWarns mi, []⟩
        | .ok s =>
          if tokAt ts s.i ≠ Tok.final then
            ⟨some (.syntaxErrorEx s.i), mi, mdWarns mi, []⟩
          else if model = MODEL_FLAT ∧ mi.curr_cpu &&& P_CPU_MASK < P_386 then
            ⟨some .notAcceptedInCurrentCpuMode, mi, mdWarns mi, []⟩
          else
            let r := SetModel env (commitModel model s env mi)
            ⟨none, r.1, mdWarns mi, r.2⟩
      else ⟨some (.syntaxErrorEx i), mi, [], []⟩

/-! ## Claim C9: the token matcher -/

/-- The spec's contract for the token matcher, written from its words
(§4.1): the zero-based index of the first exact case-insensitive match, or
`-1` ("not found"). -/
def findTokenContract (token : String) (table : List String) : Int :=
  match table.findIdx? (fun t => stricmpEq t token) with
  | some i => (i : Int)
  | none => -1

/-- C9: for every query string and every keyword table, `FindToken`
returns the zero-based index of the first table entry matching the string
case-insensitively, and `-1` when no entry matches.  It is a pure function
of its arguments (the embedding is state-free), so it has no side
effects. -/
theorem C9_findToken_contract (token : String) (table : List String) :
    FindToken token table = findTokenContract token table := by
  induction table with
  | nil => rfl
  | cons t rest ih =>
      by_cases h : stricmpEq t token
      · simp [FindToken, findTokenContract, h]
      · simp only [FindToken, findTokenContract, h, if_false, ih,
          List.findIdx?_cons, Bool.false_eq_true, List.findIdx?_succ]
        cases h2 : rest.findIdx? (fun t => stricmpEq t token) with
        | none => simp [findTokenContract, h2]
        | some j =>
            simp only [findTokenContract, h2, Option.map_some']
            have hj : ¬((j : Int) < 0) := not_lt.mpr (Int.ofNat_nonneg j)
            simp only [hj, if_false]
            omega

/-! ## Claims C4, C5, C8: the CPU/FPU state merger -/

/-- The merged capability mask computed by `SetCPU` is the four blocks
applied in source order. -/
theorem SetCPU_curr_cpu (newcpu : Nat) (env : Env) (mi : ModuleInfo) :
    (SetCPU newcpu env mi).1.curr_cpu =
      cpuStep4 newcpu (cpuStep3 newcpu (cpuStep2 newcpu
        (cpuStep1 newcpu mi.curr_cpu))) := by
  simp only [SetCPU, SetDefaultOfssize]
  split_ifs <;> rfl

/-- The first block does not change the FPU sub-field of the CPU/PM
merge before the default-FPU test reads it. -/
theorem merged_fpu_field (newcpu cc : Nat) :
    (andn cc (P_CPU_MASK ||| P_PM) |||
      newcpu &&& (P_CPU_MASK ||| P_PM)) &&& P_FPU_MASK =
    cc &&& P_FPU_MASK := by
  rw [lor_land_of_disjoint _ (land_land_of_disjoint newcpu (by decide)),
    andn_land_of_disjoint _ (by decide)]

/-- The CPU-level field after the CPU/PM merge is the requested level. -/
theorem merged_cpu_field (newcpu cc : Nat) :
    (andn cc (P_CPU_MASK ||| P_PM) |||
      newcpu &&& (P_CPU_MASK ||| P_PM)) &&& P_CPU_MASK =
    newcpu &&& P_CPU_MASK := by
  rw [land_lor_dist, andn_land_of_subset cc (by decide),
    land_land_of_subset newcpu (by decide)]
  simp

/-- First block, `.NO87` active: the FPU sub-field stays `none`. -/
theorem cpuStep1_fpu_no87 (newcpu cc : Nat)
    (h : cc &&& P_FPU_MASK = P_NO87) (_hf : newcpu &&& P_FPU_MASK = 0) :
    cpuStep1 newcpu cc &&& P_FPU_MASK = P_NO87 := by
  unfold cpuStep1
  by_cases hc : newcpu = P_86 ∨ newcpu &&& P_CPU_MASK ≠ 0
  · rw [if_pos hc]
    simp only
    rw [if_neg]
    · rw [merged_fpu_field, h]
    · rw [merged_fpu_field, h]
      simp
  · rw [if_neg hc]
    exact h

/-- First block, CPU-level request with no FPU request and `.NO87` not
active: the FPU sub-field becomes the default derived from the new CPU
level. -/
theorem cpuStep1_fpu_default (newcpu cc : Nat)
    (hc : newcpu = P_86 ∨ newcpu &&& P_CPU_MASK ≠ 0)
    (hno : cc &&& P_FPU_MASK ≠ P_NO87) (hf : newcpu &&& P_FPU_MASK = 0) :
    cpuStep1 newcpu cc &&& P_FPU_MASK =
      (if newcpu &&& P_CPU_MASK < P_286 then P_87
       else if newcpu &&& P_CPU_MASK < P_386 then P_287 else P_387) := by
  unfold cpuStep1
  rw [if_pos hc]
  simp only
  rw [if_pos (by rw [merged_fpu_field]; exact ⟨hno, hf⟩)]
  rw [andn_land_of_disjoint _ (by decide), merged_cpu_field]
  have hz : andn (andn cc (P_CPU_MASK ||| P_PM) |||
      newcpu &&& (P_CPU_MASK ||| P_PM)) P_FPU_MASK &&& P_FPU_MASK = 0 :=
    andn_land_of_subset _ (by decide)
  split_ifs with h1 h2 <;>
    rw [land_lor_dist, hz] <;> simp <;> decide

/-- First block with no CPU-level request: `curr_cpu` is untouched. -/
theorem cpuStep1_no_cpu (newcpu cc : Nat)
    (hc : ¬(newcpu = P_86 ∨ newcpu &&& P_CPU_MASK ≠ 0)) :
    cpuStep1 newcpu cc = cc := by
  unfold cpuStep1
  rw [if_neg hc]

/-- Second block with no FPU request: `curr_cpu` is untouched. -/
theorem cpuStep2_of_none (newcpu cc : Nat) (h : newcpu &&& P_FPU_MASK = 0) :
    cpuStep2 newcpu cc = cc := by
  unfold cpuStep2
  simp [h]

/-- Second block with an explicit FPU request: the FPU sub-field becomes
the request. -/
theorem cpuStep2_fpu_explicit (newcpu cc : Nat)
    (h : newcpu &&& P_FPU_MASK ≠ 0) :
    cpuStep2 newcpu cc &&& P_FPU_MASK = newcpu &&& P_FPU_MASK := by
  unfold cpuStep2
  rw [if_pos h, land_lor_dist, andn_land_of_subset cc (by decide),
    land_land_of_subset newcpu (by decide)]
  simp

/-- Third block never touches the FPU sub-field. -/
theorem cpuStep3_fpu (newcpu cc : Nat) :
    cpuStep3 newcpu cc &&& P_FPU_MASK = cc &&& P_FPU_MASK := by
  unfold cpuStep3
  split_ifs with h
  · exact lor_land_of_disjoint cc (by decide)
  · rfl

/-- Fourth block never touches the FPU sub-field. -/
theorem cpuStep4_fpu (newcpu cc : Nat) :
    cpuStep4 newcpu cc &&& P_FPU_MASK = cc &&& P_FPU_MASK := by
  unfold cpuStep4
  split_ifs with h
  · rw [lor_land_of_disjoint _ (land_land_of_disjoint newcpu (by decide)),
      andn_land_of_disjoint _ (by decide)]
  · rfl

/-- C4: for every call to `SetCPU`, (i) an explicit FPU request determines
the resulting FPU sub-field; (ii) a CPU-level request without an FPU
request, when `.NO87` is not active, re-derives the default FPU level from
the new CPU level (`<286 → 8087`, `<386 → 80287`, else `80387`); and
(iii) when `.NO87` is active the FPU sub-field remains `none` across
CPU-level-only requests. -/
theorem C4_setcpu_fpu_merge (newcpu : Nat) (env : Env) (mi : ModuleInfo) :
    ((newcpu &&& P_FPU_MASK ≠ 0 →
       (SetCPU newcpu env mi).1.curr_cpu &&& P_FPU_MASK =
         newcpu &&& P_FPU_MASK) ∧
     ((newcpu = P_86 ∨ newcpu &&& P_CPU_MASK ≠ 0) →
       newcpu &&& P_FPU_MASK = 0 →
       mi.curr_cpu &&& P_FPU_MASK ≠ P_NO87 →
       (SetCPU newcpu env mi).1.curr_cpu &&& P_FPU_MASK =
         (if newcpu &&& P_CPU_MASK < P_286 then P_87
          else if newcpu &&& P_CPU_MASK < P_386 then P_287 else P_387)) ∧
     (mi.curr_cpu &&& P_FPU_MASK = P_NO87 → newcpu &&& P_FPU_MASK = 0 →
       (SetCPU newcpu env mi).1.curr_cpu &&& P_FPU_MASK = P_NO87)) := by
  rw [SetCPU_curr_cpu]
  refine ⟨fun h => ?_, fun hc hf hno => ?_, fun h hf => ?_⟩
  · rw [cpuStep4_fpu, cpuStep3_fpu, cpuStep2_fpu_explicit _ _ h]
  · rw [cpuStep4_fpu, cpuStep3_fpu, cpuStep2_of_none _ _ hf,
      cpuStep1_fpu_default _ _ hc hno hf]
  · rw [cpuStep4_fpu, cpuStep3_fpu, cpuStep2_of_none _ _ hf,
      cpuStep1_fpu_no87 _ _ h hf]

/-- C4 witness: concrete instances of the three cases — `.386` with an
explicit 80387 request, `.286`-level request defaulting to 80287, and a
CPU-level request after `.NO87`. -/
theorem C4_setcpu_fpu_merge_witness :
    ((SetCPU 0x34 ⟨0, false, 2⟩
        ⟨0, 0, 0, 0, 0x12, 0, 16, 0, 0, .dflt⟩).1.curr_cpu &&& P_FPU_MASK =
      0x34 &&& P_FPU_MASK) ∧
    ((SetCPU 0x20 ⟨0, false, 2⟩
        ⟨0, 0, 0, 0, 0x34, 0, 16, 0, 0, .dflt⟩).1.curr_cpu &&& P_FPU_MASK =
      P_287) ∧
    ((SetCPU 0x20 ⟨0, false, 2⟩
        ⟨0, 0, 0, 0, 0x31, 0, 16, 0, 0, .dflt⟩).1.curr_cpu &&& P_FPU_MASK =
      P_NO87) := by
  refine ⟨(C4_setcpu_fpu_merge 0x34 ⟨0, false, 2⟩
      ⟨0, 0, 0, 0, 0x12, 0, 16, 0, 0, .dflt⟩).1 (by decide), ?_, ?_⟩
  · have h := (C4_setcpu_fpu_merge 0x20 ⟨0, false, 2⟩
      ⟨0, 0, 0, 0, 0x34, 0, 16, 0, 0, .dflt⟩).2.1
      (Or.inr (by decide)) (by decide) (by decide)
    rw [h]
    decide
  · exact (C4_setcpu_fpu_merge 0x20 ⟨0, false, 2⟩
      ⟨0, 0, 0, 0, 0x31, 0, 0, 0, 0, .dflt⟩).2.2 (by decide) (by decide)

/-- C5 counterexample: the claim fails as stated.  A request whose CPU
level is the 64-bit level but which itself carries an extension bit
(`P_64 ||| P_SSE1 = 0x470`) yields a mask whose extension sub-field is
only SSE1 — not every extension bit — even though the prior state had all
extension bits set. -/
theorem C5_counterexample :
    (0x470 &&& P_CPU_MASK = P_64) ∧
    ¬((SetCPU 0x470 ⟨0, false, 2⟩
        ⟨0, 0, 0, 0, 0x7F34, 0, 16, 0, 0, .dflt⟩).1.curr_cpu &&&
          P_EXT_ALL = P_EXT_ALL) := by
  decide

/-- C5 (amended): for every call to `SetCPU` whose requested CPU level is
the 64-bit level and whose request carries no extension bits, the
resulting mask has every extension bit (MMX, 3D-Now, SSE1-4) set,
regardless of the prior extension state; a request that does carry
extension bits overwrites the extension sub-field with exactly those bits
instead. -/
theorem C5_setcpu_ext64 (newcpu : Nat) (env : Env) (mi : ModuleInfo)
    (h64 : newcpu &&& P_CPU_MASK = P_64) :
    (newcpu &&& P_EXT_MASK = 0 →
      (SetCPU newcpu env mi).1.curr_cpu &&& P_EXT_ALL = P_EXT_ALL) ∧
    (newcpu &&& P_EXT_MASK ≠ 0 →
      (SetCPU newcpu env mi).1.curr_cpu &&& P_EXT_MASK =
        newcpu &&& P_EXT_MASK) := by
  rw [SetCPU_curr_cpu]
  constructor
  · intro hext
    rw [cpuStep4, if_neg (by simp [hext])]
    rw [cpuStep3, if_pos h64]
    exact lor_land_self _ _
  · intro hext
    rw [cpuStep4, if_pos hext, land_lor_dist,
      andn_land_of_subset _ (by decide),
      land_land_of_subset newcpu (by decide)]
    simp

/-- C5 witness: a pure 64-bit level request (`P_64`) force-enables the
whole extension set, and a 64-bit request carrying only SSE1 ends with
exactly SSE1 in the extension sub-field. -/
theorem C5_setcpu_ext64_witness :
    ((SetCPU 0x70 ⟨0, false, 2⟩
        ⟨0, 0, 0, 0, 0x34, 0, 16, 0, 0, .dflt⟩).1.curr_cpu &&& P_EXT_ALL =
      P_EXT_ALL) ∧
    ((SetCPU 0x470 ⟨0, false, 2⟩
        ⟨0, 0, 0, 0, 0x7F34, 0, 16, 0, 0, .dflt⟩).1.curr_cpu &&&
      P_EXT_MASK = 0x470 &&& P_EXT_MASK) :=
  ⟨(C5_setcpu_ext64 0x70 ⟨0, false, 2⟩
      ⟨0, 0, 0, 0, 0x34, 0, 16, 0, 0, .dflt⟩ (by decide)).1 (by decide),
   (C5_setcpu_ext64 0x470 ⟨0, false, 2⟩
      ⟨0, 0, 0, 0, 0x7F34, 0, 16, 0, 0, .dflt⟩ (by decide)).2 (by decide)⟩

/-- C8: for every call to `SetCPU` while no model is set, the default
offset size is derived from the merged (new) CPU level — 64-bit level
gives 64, at least 386 gives 32, else 16 — but the stored default is only
written when no segment is currently open; with a segment open it is left
unchanged. -/
theorem C8_setcpu_defofssize (newcpu : Nat) (env : Env) (mi : ModuleInfo)
    (hm : mi.model = MODEL_NONE) :
    (env.currSegOpen = false →
      (SetCPU newcpu env mi).1.defOfssize =
        (if (SetCPU newcpu env mi).1.curr_cpu &&& P_CPU_MASK ≥ P_64 then
           USE64
         else if (SetCPU newcpu env mi).1.curr_cpu &&& P_CPU_MASK ≥ P_386
         then USE32 else USE16)) ∧
    (env.currSegOpen = true →
      (SetCPU newcpu env mi).1.defOfssize = mi.defOfssize) := by
  simp only [SetCPU, SetDefaultOfssize, hm]
  constructor <;> intro hseg <;> split_ifs <;> simp_all

/-- C8 witness: with no segment open, a `.686`-level request (0x60) sets
the default offset size to 32; with a segment open, it is untouched. -/
theorem C8_setcpu_defofssize_witness :
    ((SetCPU 0x60 ⟨0, false, 2⟩
        ⟨0, 0, 0, 0, 0x12, 0, 16, 0, 0, .dflt⟩).1.defOfssize = USE32) ∧
    ((SetCPU 0x60 ⟨0, true, 2⟩
        ⟨0, 0, 0, 0, 0x12, 0, 16, 0, 0, .dflt⟩).1.defOfssize = 16) := by
  constructor
  · have h := (C8_setcpu_defofssize 0x60 ⟨0, false, 2⟩
      ⟨0, 0, 0, 0, 0x12, 0, 16, 0, 0, .dflt⟩ rfl).1 rfl
    rw [h]
    decide
  · exact (C8_setcpu_defofssize 0x60 ⟨0, true, 2⟩
      ⟨0, 0, 0, 0, 0x12, 0, 16, 0, 0, .dflt⟩ rfl).2 rfl

/-! ## Helper lemmas about the `.MODEL` handler -/

/-- The configuration part of the finalizer never changes the stored
model. -/
theorem setModelCfg_model (env : Env) (mi : ModuleInfo) :
    (setModelCfg env mi).model = mi.model := by
  unfold setModelCfg SetDefaultOfssize
  dsimp only
  split_ifs <;> rfl

/-- The configuration part of the finalizer never changes the stored OS
type. -/
theorem setModelCfg_ostype (env : Env) (mi : ModuleInfo) :
    (setModelCfg env mi).ostype = mi.ostype := by
  unfold setModelCfg SetDefaultOfssize
  dsimp only
  split_ifs <;> rfl

/-- The model finalizer never changes the stored model. -/
theorem SetModel_model (env : Env) (mi : ModuleInfo) :
    (SetModel env mi).1.model = mi.model := setModelCfg_model env mi

/-- The model finalizer never changes the stored OS type. -/
theorem SetModel_ostype (env : Env) (mi : ModuleInfo) :
    (SetModel env mi).1.ostype = mi.ostype := setModelCfg_ostype env mi

/-- On the first pass the finalizer creates `@DataSize` with the value the
`switch` in `SetModel` derives from the model. -/
theorem SetModel_dataSize_mem (env : Env) (mi : ModuleInfo)
    (hp : env.pass = PASS_1) :
    ("@DataSize", dataSizeValue mi.model) ∈ (SetModel env mi).2 := by
  show ("@DataSize", dataSizeValue mi.model) ∈
    setModelSyms env (setModelCfg env mi)
  unfold setModelSyms
  rw [if_neg (by rw [hp]; exact fun h => h rfl), setModelCfg_model]
  simp

/-- The commit block stores the resolved model. -/
theorem commitModel_model (m : Nat) (s : LoopState) (env : Env)
    (mi : ModuleInfo) : (commitModel m s env mi).model = m := by
  simp only [commitModel]
  split_ifs <;> rfl

/-- When the OS category was resolved, the commit block stores the
resolved OS type. -/
theorem commitModel_ostype_set (m : Nat) (s : LoopState) (env : Env)
    (mi : ModuleInfo) (h : s.init &&& INIT_OS ≠ 0) :
    (commitModel m s env mi).ostype = s.ostype := by
  simp only [commitModel]
  rw [if_pos h]

/-- Any failing `ModelDirective` invocation leaves the configuration
untouched: all mutation happens in the commit block, which is only
reached on the success path. -/
theorem ModelDirective_error_frame (i0 tc : Nat) (ts : List Tok)
    (env : Env) (mi : ModuleInfo) (e : DirErr)
    (h : (ModelDirective i0 tc ts env mi).err = some e) :
    (ModelDirective i0 tc ts env mi).mi = mi := by
  revert h
  unfold ModelDirective
  dsimp only
  split
  · intro h
    exact absurd h (by simp)
  · split
    · intro _
      rfl
    · split
      · split
        · intro _
          rfl
        · split
          · intro _
            rfl
          · split
            · intro _
              rfl
            · intro h
              exact absurd h (by simp)
      · intro _
        rfl

/-- Evaluation of a first-pass `ModelDirective` run whose parse phase
succeeds: resolving model index `m` with the attribute loop returning `s`
and the trailing token being `T_FINAL`, the run either fails the FLAT CPU
check or commits and finalizes. -/
theorem ModelDirective_run (i0 tc : Nat) (ts : List Tok) (env : Env)
    (mi : ModuleInfo) (m : Nat) (s : LoopState)
    (hp : env.pass = PASS_1)
    (hfind : FindToken (tokAt ts (i0 + 1)).str ModelToken = Int.ofNat m)
    (hloop : attrLoop tc (m + 1) tc ts ⟨i0 + 1 + 1, 0, LANG_NONE, 0, 0⟩ =
      Except.ok s)
    (hfin : tokAt ts s.i = Tok.final) :
    ModelDirective i0 tc ts env mi =
      if m + 1 = MODEL_FLAT ∧ mi.curr_cpu &&& P_CPU_MASK < P_386 then
        ⟨some DirErr.notAcceptedInCurrentCpuMode, mi, mdWarns mi, []⟩
      else
        ⟨none, (SetModel env (commitModel (m + 1) s env mi)).1, mdWarns mi,
         (SetModel env (commitModel (m + 1) s env mi)).2⟩ := by
  have htok : ¬(tokAt ts (i0 + 1) = Tok.final) := by
    intro hb
    rw [hb] at hfind
    have h1 : FindToken (Tok.final).str ModelToken = -1 := by decide
    rw [h1] at hfind
    have h2 : (0 : Int) ≤ Int.ofNat m := Int.ofNat_nonneg m
    rw [← hfind] at h2
    norm_num at h2
  have hpos : FindToken (tokAt ts (i0 + 1)).str ModelToken ≥ 0 := by
    rw [hfind]
    exact Int.ofNat_nonneg m
  have htn : (FindToken (tokAt ts (i0 + 1)).str ModelToken).toNat = m := by
    rw [hfind]
    exact Int.toNat_ofNat m
  simp only [ModelDirective, hp, ne_eq, not_true_eq_false, false_and,
    if_false, htok, hpos, if_true, htn, hloop, hfin, not_false_eq_true,
    ite_true, ite_false]

/-- Evaluation of a first-pass `ModelDirective` run whose attribute loop
fails: the resolved diagnostic is returned with the configuration
untouched. -/
theorem ModelDirective_run_loopErr (i0 tc : Nat) (ts : List Tok)
    (env : Env) (mi : ModuleInfo) (m : Nat) (e : DirErr)
    (hp : env.pass = PASS_1)
    (hfind : FindToken (tokAt ts (i0 + 1)).str ModelToken = Int.ofNat m)
    (hloop : attrLoop tc (m + 1) tc ts ⟨i0 + 1 + 1, 0, LANG_NONE, 0, 0⟩ =
      Except.error e) :
    ModelDirective i0 tc ts env mi = ⟨some e, mi, mdWarns mi, []⟩ := by
  have htok : ¬(tokAt ts (i0 + 1) = Tok.final) := by
    intro hb
    rw [hb] at hfind
    have h1 : FindToken (Tok.final).str ModelToken = -1 := by decide
    rw [h1] at hfind
    have h2 : (0 : Int) ≤ Int.ofNat m := Int.ofNat_nonneg m
    rw [← hfind] at h2
    norm_num at h2
  have hpos : FindToken (tokAt ts (i0 + 1)).str ModelToken ≥ 0 := by
    rw [hfind]
    exact Int.ofNat_nonneg m
  have htn : (FindToken (tokAt ts (i0 + 1)).str ModelToken).toNat = m := by
    rw [hfind]
    exact Int.toNat_ofNat m
  simp only [ModelDirective, hp, ne_eq, not_true_eq_false, false_and,
    if_false, htok, hpos, if_true, htn, hloop, ite_true, ite_false]

/-- Evaluation of a first-pass `ModelDirective` run whose attribute loop
stops on a token that is not `T_FINAL`: the trailing-token check fails
with a syntax error at that token. -/
theorem ModelDirective_run_trailing (i0 tc : Nat) (ts : List Tok)
    (env : Env) (mi : ModuleInfo) (m : Nat) (s : LoopState)
    (hp : env.pass = PASS_1)
    (hfind : FindToken (tokAt ts (i0 + 1)).str ModelToken = Int.ofNat m)
    (hloop : attrLoop tc (m + 1) tc ts ⟨i0 + 1 + 1, 0, LANG_NONE, 0, 0⟩ =
      Except.ok s)
    (hfin : ¬(tokAt ts s.i = Tok.final)) :
    ModelDirective i0 tc ts env mi =
      ⟨some (DirErr.syntaxErrorEx s.i), mi, mdWarns mi, []⟩ := by
  have htok : ¬(tokAt ts (i0 + 1) = Tok.final) := by
    intro hb
    rw [hb] at hfind
    have h1 : FindToken (Tok.final).str ModelToken = -1 := by decide
    rw [h1] at hfind
    have h2 : (0 : Int) ≤ Int.ofNat m := Int.ofNat_nonneg m
    rw [← hfind] at h2
    norm_num at h2
  have hpos : FindToken (tokAt ts (i0 + 1)).str ModelToken ≥ 0 := by
    rw [hfind]
    exact Int.ofNat_nonneg m
  have htn : (FindToken (tokAt ts (i0 + 1)).str ModelToken).toNat = m := by
    rw [hfind]
    exact Int.toNat_ofNat m
  simp only [ModelDirective, hp, ne_eq, not_true_eq_false, false_and,
    if_false, htok, hpos, if_true, htn, hloop, hfin, not_false_eq_true,
    ite_true, ite_false]

/-- With model FLAT, an attribute slot holding a stack-distance keyword
makes the attribute loop fail with `InvalidModelParamForFlat`, whatever
tokens follow and whatever the token count (`k + 4` ranges over all
counts that let the loop reach the slot). -/
theorem attrLoop_flat_stack (k : Nat) (t0 : Tok) (rest : List Tok)
    (d : String) (hd : d = "NEARSTACK" ∨ d = "FARSTACK") :
    attrLoop (k + 4) MODEL_FLAT (k + 4)
      ([t0, Tok.id "FLAT", Tok.comma, Tok.id d] ++ rest)
      ⟨2, 0, LANG_NONE, 0, 0⟩ =
    Except.error DirErr.invalidModelParamForFlat := by
  rcases hd with rfl | rfl <;>
  · rw [show k + 4 = (k + 3) + 1 from rfl]
    unfold attrLoop
    rw [if_pos ⟨show (2 : Nat) < (k + 3) + 1 - 1 by omega, rfl⟩]
    rfl

/-! ## Claim C1 -/

/-- C1 counterexample: the claim that `ostype` is unsettable under FLAT is
false.  On the first pass, `.MODEL FLAT, OS_DOS` with CPU level 386
succeeds (no error) and writes `ostype` — the configuration's OS type
changes from its prior value to `OPSYS_OS2`. -/
theorem C1_counterexample :
    ((ModelDirective 0 4
        [Tok.id ".model", Tok.id "FLAT", Tok.comma, Tok.id "OS_DOS",
         Tok.final]
        ⟨PASS_1, false, OFORMAT_COFF⟩
        ⟨MODEL_NONE, 0, 0, OPSYS_DOS, 0x34, 0, 16, 0, 0, .dflt⟩).err =
      none) ∧
    ((ModelDirective 0 4
        [Tok.id ".model", Tok.id "FLAT", Tok.comma, Tok.id "OS_DOS",
         Tok.final]
        ⟨PASS_1, false, OFORMAT_COFF⟩
        ⟨MODEL_NONE, 0, 0, OPSYS_DOS, 0x34, 0, 16, 0, 0, .dflt⟩).mi.ostype =
      OPSYS_OS2) := by
  decide

/-- C1 (amended): for every first-pass `.MODEL` invocation resolving FLAT,
supplying a stack-distance attribute (`NEARSTACK` or `FARSTACK`) fails
with `InvalidModelParamForFlat` and leaves the configuration untouched —
whatever tokens follow and whatever the token count; but an OS attribute
is accepted: with the CPU level at least 386 the directive succeeds and
commits `ostype`, so only `distance` is unsettable when the model is
FLAT. -/
theorem C1_flat_attrs :
    (∀ (k : Nat) (t0 : Tok) (rest : List Tok) (env : Env)
       (mi : ModuleInfo) (d : String), env.pass = PASS_1 →
       d = "NEARSTACK" ∨ d = "FARSTACK" →
       (ModelDirective 0 (k + 4)
          ([t0, Tok.id "FLAT", Tok.comma, Tok.id d] ++ rest) env mi).err =
         some DirErr.invalidModelParamForFlat ∧
       (ModelDirective 0 (k + 4)
          ([t0, Tok.id "FLAT", Tok.comma, Tok.id d] ++ rest) env mi).mi =
         mi) ∧
    (∀ (env : Env) (mi : ModuleInfo) (os : String) (v : Nat),
       env.pass = PASS_1 → P_386 ≤ mi.curr_cpu &&& P_CPU_MASK →
       ((os, v) = ("OS_OS2", OPSYS_DOS) ∨ (os, v) = ("OS_DOS", OPSYS_OS2)) →
       (ModelDirective 0 4
          [Tok.id ".model", Tok.id "FLAT", Tok.comma, Tok.id os, Tok.final]
          env mi).err = none ∧
       (ModelDirective 0 4
          [Tok.id ".model", Tok.id "FLAT", Tok.comma, Tok.id os, Tok.final]
          env mi).mi.ostype = v) := by
  constructor
  · intro k t0 rest env mi d hp hd
    have hrun := ModelDirective_run_loopErr 0 (k + 4)
      ([t0, Tok.id "FLAT", Tok.comma, Tok.id d] ++ rest) env mi 6
      DirErr.invalidModelParamForFlat hp
      (by rcases hd with rfl | rfl <;> rfl)
      (attrLoop_flat_stack k t0 rest d hd)
    rw [hrun]
    exact ⟨rfl, rfl⟩
  · intro env mi os v hp hcpu hos
    have hflatneg :
        ¬(6 + 1 = MODEL_FLAT ∧ mi.curr_cpu &&& P_CPU_MASK < P_386) :=
      fun h => absurd h.2 (Nat.not_lt.mpr hcpu)
    simp only [Prod.mk.injEq] at hos
    rcases hos with ⟨rfl, rfl⟩ | ⟨rfl, rfl⟩
    · have hrun := ModelDirective_run 0 4
        [Tok.id ".model", Tok.id "FLAT", Tok.comma, Tok.id "OS_OS2",
         Tok.final] env mi 6 ⟨4, INIT_OS, LANG_NONE, 0, OPSYS_DOS⟩ hp
        rfl rfl rfl
      rw [hrun, if_neg hflatneg]
      refine ⟨rfl, ?_⟩
      rw [SetModel_ostype, commitModel_ostype_set _ _ _ _ (by decide)]
    · have hrun := ModelDirective_run 0 4
        [Tok.id ".model", Tok.id "FLAT", Tok.comma, Tok.id "OS_DOS",
         Tok.final] env mi 6 ⟨4, INIT_OS, LANG_NONE, 0, OPSYS_OS2⟩ hp
        rfl rfl rfl
      rw [hrun, if_neg hflatneg]
      refine ⟨rfl, ?_⟩
      rw [SetModel_ostype, commitModel_ostype_set _ _ _ _ (by decide)]

/-- C1 witness: `.MODEL FLAT, NEARSTACK` (with the CPU at 386) fails with
`InvalidModelParamForFlat` leaving the configuration unchanged, and
`.MODEL FLAT, OS_OS2` succeeds, setting `ostype` to the DOS value. -/
theorem C1_flat_attrs_witness :
    ((ModelDirective 0 4
        [Tok.id ".model", Tok.id "FLAT", Tok.comma, Tok.id "NEARSTACK",
         Tok.final] ⟨PASS_1, false, OFORMAT_COFF⟩
        ⟨MODEL_NONE, 0, 0, 0, 0x34, 0, 16, 0, 0, .dflt⟩).err =
      some DirErr.invalidModelParamForFlat) ∧
    ((ModelDirective 0 4
        [Tok.id ".model", Tok.id "FLAT", Tok.comma, Tok.id "NEARSTACK",
         Tok.final] ⟨PASS_1, false, OFORMAT_COFF⟩
        ⟨MODEL_NONE, 0, 0, 0, 0x34, 0, 16, 0, 0, .dflt⟩).mi =
      ⟨MODEL_NONE, 0, 0, 0, 0x34, 0, 16, 0, 0, .dflt⟩) ∧
    ((ModelDirective 0 4
        [Tok.id ".model", Tok.id "FLAT", Tok.comma, Tok.id "OS_OS2",
         Tok.final] ⟨PASS_1, false, OFORMAT_COFF⟩
        ⟨MODEL_NONE, 0, 0, 1, 0x34, 0, 16, 0, 0, .dflt⟩).mi.ostype =
      OPSYS_DOS) := by
  refine ⟨?_, ?_, ?_⟩
  · exact (C1_flat_attrs.1 0 (Tok.id ".model") [Tok.final]
      ⟨PASS_1, false, OFORMAT_COFF⟩
      ⟨MODEL_NONE, 0, 0, 0, 0x34, 0, 16, 0, 0, .dflt⟩ "NEARSTACK" rfl
      (Or.inl rfl)).1
  · exact (C1_flat_attrs.1 0 (Tok.id ".model") [Tok.final]
      ⟨PASS_1, false, OFORMAT_COFF⟩
      ⟨MODEL_NONE, 0, 0, 0, 0x34, 0, 16, 0, 0, .dflt⟩ "NEARSTACK" rfl
      (Or.inl rfl)).2
  · exact (C1_flat_attrs.2 ⟨PASS_1, false, OFORMAT_COFF⟩
      ⟨MODEL_NONE, 0, 0, 1, 0x34, 0, 16, 0, 0, .dflt⟩ "OS_OS2" OPSYS_DOS
      rfl (by decide) (Or.inl rfl)).2

/-! ## Claim C2 -/

/-- C2: a first-pass `.MODEL` invocation resolving FLAT whose attribute
parse succeeds, while the CPU level is below 386, fails with
`InstructionOrRegisterNotAcceptedInCurrentCpuMode` and leaves every
configuration field exactly as it was; moreover every failing
`ModelDirective` invocation whatsoever leaves the configuration untouched
(commit is all-or-nothing on error). -/
theorem C2_flat_cpu_guard (i0 tc : Nat) (ts : List Tok) (env : Env)
    (mi : ModuleInfo) (s : LoopState)
    (hp : env.pass = PASS_1)
    (hfind : FindToken (tokAt ts (i0 + 1)).str ModelToken = Int.ofNat 6)
    (hloop : attrLoop tc MODEL_FLAT tc ts
      ⟨i0 + 1 + 1, 0, LANG_NONE, 0, 0⟩ = Except.ok s)
    (hfin : tokAt ts s.i = Tok.final)
    (hcpu : mi.curr_cpu &&& P_CPU_MASK < P_386) :
    ((ModelDirective i0 tc ts env mi).err =
      some DirErr.notAcceptedInCurrentCpuMode ∧
     (ModelDirective i0 tc ts env mi).mi = mi) ∧
    (∀ (i1 tc1 : Nat) (ts1 : List Tok) (env1 : Env) (mi1 : ModuleInfo)
       (e : DirErr), (ModelDirective i1 tc1 ts1 env1 mi1).err = some e →
       (ModelDirective i1 tc1 ts1 env1 mi1).mi = mi1) := by
  refine ⟨?_, fun i1 tc1 ts1 env1 mi1 e he =>
    ModelDirective_error_frame i1 tc1 ts1 env1 mi1 e he⟩
  have hrun := ModelDirective_run i0 tc ts env mi 6 s hp hfind hloop hfin
  rw [hrun, if_pos ⟨rfl, hcpu⟩]
  exact ⟨rfl, rfl⟩

/-- C2 witness: `.MODEL FLAT` on the first pass with the CPU at the 286
level fails with the CPU-mode diagnostic and leaves the configuration
unchanged. -/
theorem C2_flat_cpu_guard_witness :
    ((ModelDirective 0 2 [Tok.id ".model", Tok.id "FLAT", Tok.final]
        ⟨PASS_1, false, OFORMAT_COFF⟩
        ⟨MODEL_NONE, 0, 0, 0, 0x23, 0, 16, 0, 0, .dflt⟩).err =
      some DirErr.notAcceptedInCurrentCpuMode) ∧
    ((ModelDirective 0 2 [Tok.id ".model", Tok.id "FLAT", Tok.final]
        ⟨PASS_1, false, OFORMAT_COFF⟩
        ⟨MODEL_NONE, 0, 0, 0, 0x23, 0, 16, 0, 0, .dflt⟩).mi =
      ⟨MODEL_NONE, 0, 0, 0, 0x23, 0, 16, 0, 0, .dflt⟩) ∧
    ((ModelDirective 0 2 [Tok.id ".model", Tok.id "BOGUS", Tok.final]
        ⟨PASS_1, false, OFORMAT_COFF⟩
        ⟨MODEL_NONE, 0, 0, 0, 0x23, 0, 16, 0, 0, .dflt⟩).mi =
      ⟨MODEL_NONE, 0, 0, 0, 0x23, 0, 16, 0, 0, .dflt⟩) := by
  have h := C2_flat_cpu_guard 0 2 [Tok.id ".model", Tok.id "FLAT", Tok.final]
    ⟨PASS_1, false, OFORMAT_COFF⟩
    ⟨MODEL_NONE, 0, 0, 0, 0x23, 0, 16, 0, 0, .dflt⟩
    ⟨2, 0, LANG_NONE, 0, 0⟩ rfl rfl rfl rfl (by decide)
  exact ⟨h.1.1, h.1.2,
    h.2 0 2 [Tok.id ".model", Tok.id "BOGUS", Tok.final]
      ⟨PASS_1, false, OFORMAT_COFF⟩
      ⟨MODEL_NONE, 0, 0, 0, 0x23, 0, 16, 0, 0, .dflt⟩
      (DirErr.syntaxErrorEx 1) (by decide)⟩

/-! ## Claim C3 -/

/-- C3 counterexample: the claim that
`.MODEL SMALL, NEARSTACK, NEARSTACK` (second `NEARSTACK` last) returns
without error is false.  After the duplicate-category break rewinds `i`
onto the second `NEARSTACK`, the trailing-token check fails with
`SyntaxError` at that token (index 5). -/
theorem C3_counterexample :
    ((ModelDirective 0 6
        [Tok.id ".model", Tok.id "SMALL", Tok.comma, Tok.id "NEARSTACK",
         Tok.comma, Tok.id "NEARSTACK", Tok.final]
        ⟨PASS_1, false, OFORMAT_COFF⟩
        ⟨MODEL_NONE, 0, 0, 0, 0x34, 0, 16, 0, 0, .dflt⟩).err ≠ none) ∧
    ((ModelDirective 0 6
        [Tok.id ".model", Tok.id "SMALL", Tok.comma, Tok.id "NEARSTACK",
         Tok.comma, Tok.id "NEARSTACK", Tok.final]
        ⟨PASS_1, false, OFORMAT_COFF⟩
        ⟨MODEL_NONE, 0, 0, 0, 0x34, 0, 16, 0, 0, .dflt⟩).err =
      some (DirErr.syntaxErrorEx 5)) := by
  decide

/-- C3 (amended): in `.MODEL SMALL, NEARSTACK, NEARSTACK` the handler
stops parsing at the second `NEARSTACK` without consuming it, and the
trailing-token check then fails with `SyntaxError` at that token (index
5), even when it is the last token; `.MODEL SMALL, NEARSTACK, FARSTACK`
followed by a further non-final token likewise fails with `SyntaxError`
at the `FARSTACK` token. -/
theorem C3_dup_attr (env : Env) (mi : ModuleInfo) (hp : env.pass = PASS_1) :
    ((ModelDirective 0 6
        [Tok.id ".model", Tok.id "SMALL", Tok.comma, Tok.id "NEARSTACK",
         Tok.comma, Tok.id "NEARSTACK", Tok.final] env mi).err =
      some (DirErr.syntaxErrorEx 5)) ∧
    ((ModelDirective 0 7
        [Tok.id ".model", Tok.id "SMALL", Tok.comma, Tok.id "NEARSTACK",
         Tok.comma, Tok.id "FARSTACK", Tok.id "X", Tok.final] env mi).err =
      some (DirErr.syntaxErrorEx 5)) := by
  constructor
  · have hrun := ModelDirective_run_trailing 0 6
      [Tok.id ".model", Tok.id "SMALL", Tok.comma, Tok.id "NEARSTACK",
       Tok.comma, Tok.id "NEARSTACK", Tok.final] env mi 1
      ⟨5, INIT_STACK, LANG_NONE, STACK_NEAR, 0⟩ hp rfl rfl (by decide)
    rw [hrun]
  · have hrun := ModelDirective_run_trailing 0 7
      [Tok.id ".model", Tok.id "SMALL", Tok.comma, Tok.id "NEARSTACK",
       Tok.comma, Tok.id "FARSTACK", Tok.id "X", Tok.final] env mi 1
      ⟨5, INIT_STACK, LANG_NONE, STACK_FAR, 0⟩ hp rfl rfl (by decide)
    rw [hrun]

/-- C3 witness: the amended statement at a concrete first-pass state. -/
theorem C3_dup_attr_witness :
    ((ModelDirective 0 6
        [Tok.id ".model", Tok.id "SMALL", Tok.comma, Tok.id "NEARSTACK",
         Tok.comma, Tok.id "NEARSTACK", Tok.final]
        ⟨PASS_1, false, OFORMAT_ELF⟩
        ⟨MODEL_NONE, 0, 0, 0, 0x34, 0, 16, 0, 0, .dflt⟩).err =
      some (DirErr.syntaxErrorEx 5)) ∧
    ((ModelDirective 0 7
        [Tok.id ".model", Tok.id "SMALL", Tok.comma, Tok.id "NEARSTACK",
         Tok.comma, Tok.id "FARSTACK", Tok.id "X", Tok.final]
        ⟨PASS_1, false, OFORMAT_ELF⟩
        ⟨MODEL_NONE, 0, 0, 0, 0x34, 0, 16, 0, 0, .dflt⟩).err =
      some (DirErr.syntaxErrorEx 5)) :=
  C3_dup_attr ⟨PASS_1, false, OFORMAT_ELF⟩
    ⟨MODEL_NONE, 0, 0, 0, 0x34, 0, 16, 0, 0, .dflt⟩ rfl

/-! ## Claim C6 -/

/-- Resolving the m-th model keyword against the model table yields
index m. -/
theorem findToken_modelToken_getD (m : Nat) (hm : m < 7) :
    FindToken (ModelToken.getD m "") ModelToken = Int.ofNat m := by
  interval_cases m <;> rfl

/-- The `@DataSize` table claimed by the spec, in model-keyword order
(TINY, SMALL, COMPACT, MEDIUM, LARGE, HUGE, FLAT): 0 for
TINY/SMALL/MEDIUM/FLAT, 1 for COMPACT/LARGE, 2 for HUGE. -/
def dataSizeTable : List Nat := [0, 0, 1, 0, 1, 2, 0]

/-- The code's `@DataSize` switch agrees with the claimed table on every
valid model. -/
theorem dataSizeValue_table (m : Nat) (hm : m < 7) :
    dataSizeValue (m + 1) = dataSizeTable.getD m 0 := by
  interval_cases m <;> decide

/-- C6 counterexample: the claim fails as stated for M = FLAT.  With the
CPU at the 286 level, the first-pass `.MODEL FLAT` invocation with no
attributes neither sets the model nor creates any predefined constant. -/
theorem C6_counterexample :
    ((ModelDirective 0 2 [Tok.id ".model", Tok.id "FLAT", Tok.final]
        ⟨PASS_1, false, OFORMAT_COFF⟩
        ⟨MODEL_NONE, 0, 0, 0, 0x23, 0, 16, 0, 0, .dflt⟩).mi.model ≠
      MODEL_FLAT) ∧
    ((ModelDirective 0 2 [Tok.id ".model", Tok.id "FLAT", Tok.final]
        ⟨PASS_1, false, OFORMAT_COFF⟩
        ⟨MODEL_NONE, 0, 0, 0, 0x23, 0, 16, 0, 0, .dflt⟩).syms = []) := by
  decide

/-- C6 (amended): for every valid model keyword M — provided, when M is
FLAT, the current CPU level is at least 386 — a first-pass `.MODEL M`
invocation with no attributes succeeds, sets `model = M`, and creates the
predefined numeric constant `@DataSize` with value 0 for
TINY/SMALL/MEDIUM/FLAT, 1 for COMPACT/LARGE and 2 for HUGE. -/
theorem C6_model_datasize (m : Nat) (hm : m < 7) (env : Env)
    (mi : ModuleInfo) (hp : env.pass = PASS_1)
    (hflat : m = 6 → P_386 ≤ mi.curr_cpu &&& P_CPU_MASK) :
    ((ModelDirective 0 2
        [Tok.id ".model", Tok.id (ModelToken.getD m ""), Tok.final]
        env mi).err = none) ∧
    ((ModelDirective 0 2
        [Tok.id ".model", Tok.id (ModelToken.getD m ""), Tok.final]
        env mi).mi.model = m + 1) ∧
    (("@DataSize", dataSizeTable.getD m 0) ∈
      (ModelDirective 0 2
        [Tok.id ".model", Tok.id (ModelToken.getD m ""), Tok.final]
        env mi).syms) := by
  have hneg : ¬(m + 1 = MODEL_FLAT ∧ mi.curr_cpu &&& P_CPU_MASK < P_386) := by
    rintro ⟨h1, h2⟩
    have h1n : m + 1 = 7 := h1
    exact absurd h2 (Nat.not_lt.mpr (hflat (by omega)))
  have hrun := ModelDirective_run 0 2
    [Tok.id ".model", Tok.id (ModelToken.getD m ""), Tok.final] env mi m
    ⟨2, 0, LANG_NONE, 0, 0⟩ hp (findToken_modelToken_getD m hm) rfl rfl
  rw [hrun, if_neg hneg]
  refine ⟨rfl, ?_, ?_⟩
  · rw [SetModel_model, commitModel_model]
  · have hmem := SetModel_dataSize_mem env
      (commitModel (m + 1) ⟨2, 0, LANG_NONE, 0, 0⟩ env mi) hp
    rw [commitModel_model] at hmem
    rw [← dataSizeValue_table m hm]
    exact hmem

/-- C6 witness: `.MODEL HUGE` on the first pass succeeds, sets the model
to HUGE, and creates `@DataSize = 2`. -/
theorem C6_model_datasize_witness :
    ((ModelDirective 0 2 [Tok.id ".model", Tok.id "HUGE", Tok.final]
        ⟨PASS_1, false, OFORMAT_COFF⟩
        ⟨MODEL_NONE, 0, 0, 0, 0x34, 0, 16, 0, 0, .dflt⟩).err = none) ∧
    ((ModelDirective 0 2 [Tok.id ".model", Tok.id "HUGE", Tok.final]
        ⟨PASS_1, false, OFORMAT_COFF⟩
        ⟨MODEL_NONE, 0, 0, 0, 0x34, 0, 16, 0, 0, .dflt⟩).mi.model =
      MODEL_HUGE) ∧
    (("@DataSize", 2) ∈
      (ModelDirective 0 2 [Tok.id ".model", Tok.id "HUGE", Tok.final]
        ⟨PASS_1, false, OFORMAT_COFF⟩
        ⟨MODEL_NONE, 0, 0, 0, 0x34, 0, 16, 0, 0, .dflt⟩).syms) :=
  C6_model_datasize 5 (by decide) ⟨PASS_1, false, OFORMAT_COFF⟩
    ⟨MODEL_NONE, 0, 0, 0, 0x34, 0, 16, 0, 0, .dflt⟩ rfl
    (fun h => absurd h (by decide))

/-! ## Claim C7 -/

/-- C7 counterexample: the claim fails as stated.  With the model already
set to LARGE, `.MODEL SMALL X` (a junk trailing token) emits the
`ModelAlreadyDeclared` warning but then fails with `SyntaxError`, so the
model is not updated to SMALL. -/
theorem C7_counterexample :
    ((ModelDirective 0 3
        [Tok.id ".model", Tok.id "SMALL", Tok.id "X", Tok.final]
        ⟨PASS_1, false, OFORMAT_COFF⟩
        ⟨MODEL_LARGE, 0, 0, 0, 0x34, 0, 16, 0, 0, .dflt⟩).warns =
      [Warn.modelAlreadyDeclared]) ∧
    ((ModelDirective 0 3
        [Tok.id ".model", Tok.id "SMALL", Tok.id "X", Tok.final]
        ⟨PASS_1, false, OFORMAT_COFF⟩
        ⟨MODEL_LARGE, 0, 0, 0, 0x34, 0, 16, 0, 0, .dflt⟩).mi.model ≠
      MODEL_SMALL) := by
  decide

/-- C7 (amended): for every first-pass `.MODEL` invocation whose keyword
resolves to a valid model while the stored model is already non-NONE, the
handler emits the non-fatal `ModelAlreadyDeclared` warning; and whenever
the directive then completes without error, it still updates the model to
the newly given value. -/
theorem C7_redeclare (i0 tc : Nat) (ts : List Tok) (env : Env)
    (mi : ModuleInfo) (m : Nat)
    (hp : env.pass = PASS_1) (hm : mi.model ≠ MODEL_NONE)
    (hfind : FindToken (tokAt ts (i0 + 1)).str ModelToken = Int.ofNat m) :
    (ModelDirective i0 tc ts env mi).warns = [Warn.modelAlreadyDeclared] ∧
    ((ModelDirective i0 tc ts env mi).err = none →
      (ModelDirective i0 tc ts env mi).mi.model = m + 1) := by
  have htok : ¬(tokAt ts (i0 + 1) = Tok.final) := by
    intro hb
    rw [hb] at hfind
    have h1 : FindToken (Tok.final).str ModelToken = -1 := by decide
    rw [h1] at hfind
    have h2 : (0 : Int) ≤ Int.ofNat m := Int.ofNat_nonneg m
    rw [← hfind] at h2
    norm_num at h2
  have hpos : FindToken (tokAt ts (i0 + 1)).str ModelToken ≥ 0 := by
    rw [hfind]
    exact Int.ofNat_nonneg m
  have htn : (FindToken (tokAt ts (i0 + 1)).str ModelToken).toNat = m := by
    rw [hfind]
    exact Int.toNat_ofNat m
  have hw : mdWarns mi = [Warn.modelAlreadyDeclared] := by
    unfold mdWarns
    rw [if_pos hm]
  simp only [ModelDirective, hp, ne_eq, not_true_eq_false, false_and,
    if_false, htok, hpos, if_true, htn, ite_true, ite_false]
  cases hres : attrLoop tc (m + 1) tc ts
      ⟨i0 + 1 + 1, 0, LANG_NONE, 0, 0⟩ with
  | error e => exact ⟨hw, fun h => absurd h (by simp)⟩
  | ok s =>
      dsimp only
      split_ifs with h1 h2
      · exact ⟨hw, fun h => absurd h (by simp)⟩
      · exact ⟨hw, fun _ => by rw [SetModel_model, commitModel_model]⟩
      · exact ⟨hw, fun h => absurd h (by simp)⟩

/-- C7 witness: `.MODEL SMALL` while the model is LARGE warns and updates
the model to SMALL. -/
theorem C7_redeclare_witness :
    ((ModelDirective 0 2 [Tok.id ".model", Tok.id "SMALL", Tok.final]
        ⟨PASS_1, false, OFORMAT_COFF⟩
        ⟨MODEL_LARGE, 0, 0, 0, 0x34, 0, 16, 0, 0, .dflt⟩).warns =
      [Warn.modelAlreadyDeclared]) ∧
    ((ModelDirective 0 2 [Tok.id ".model", Tok.id "SMALL", Tok.final]
        ⟨PASS_1, false, OFORMAT_COFF⟩
        ⟨MODEL_LARGE, 0, 0, 0, 0x34, 0, 16, 0, 0, .dflt⟩).mi.model =
      MODEL_SMALL) := by
  have h := C7_redeclare 0 2 [Tok.id ".model", Tok.id "SMALL", Tok.final]
    ⟨PASS_1, false, OFORMAT_COFF⟩
    ⟨MODEL_LARGE, 0, 0, 0, 0x34, 0, 16, 0, 0, .dflt⟩ 1 rfl (by decide) rfl
  exact ⟨h.1, h.2 (by decide)⟩

/-! ## Claim C10 -/

/-- A lone `OS_OS2` attribute slot: the loop consumes it and records the
(swapped) `OPSYS_DOS` value under the OS category, for any model. -/
theorem attrLoop_os_os2 (model : Nat) (t0 t1 : Tok) :
    attrLoop 4 model 4 [t0, t1, Tok.comma, Tok.id "OS_OS2", Tok.final]
      ⟨0 + 1 + 1, 0, LANG_NONE, 0, 0⟩ =
    Except.ok ⟨4, INIT_OS, LANG_NONE, 0, OPSYS_DOS⟩ := by
  with_unfolding_all rfl

/-- A lone `OS_DOS` attribute slot: the loop consumes it and records the
(swapped) `OPSYS_OS2` value under the OS category, for any model. -/
theorem attrLoop_os_dos (model : Nat) (t0 t1 : Tok) :
    attrLoop 4 model 4 [t0, t1, Tok.comma, Tok.id "OS_DOS", Tok.final]
      ⟨0 + 1 + 1, 0, LANG_NONE, 0, 0⟩ =
    Except.ok ⟨4, INIT_OS, LANG_NONE, 0, OPSYS_OS2⟩ := by
  with_unfolding_all rfl

/-- C10: the OS keyword table and the attribute-value table are ordered
inconsistently, so on every first-pass `.MODEL` invocation with a
non-FLAT model, supplying `OS_OS2` commits `ostype = OPSYS_DOS` and
supplying `OS_DOS` commits `ostype = OPSYS_OS2` — the two OS keywords map
to each other's values. -/
theorem C10_os_value_swap (m : Nat) (hm : m < 6) (env : Env)
    (mi : ModuleInfo) (hp : env.pass = PASS_1) :
    (((ModelDirective 0 4
        [Tok.id ".model", Tok.id (ModelToken.getD m ""), Tok.comma,
         Tok.id "OS_OS2", Tok.final] env mi).err = none) ∧
     ((ModelDirective 0 4
        [Tok.id ".model", Tok.id (ModelToken.getD m ""), Tok.comma,
         Tok.id "OS_OS2", Tok.final] env mi).mi.ostype = OPSYS_DOS)) ∧
    (((ModelDirective 0 4
        [Tok.id ".model", Tok.id (ModelToken.getD m ""), Tok.comma,
         Tok.id "OS_DOS", Tok.final] env mi).err = none) ∧
     ((ModelDirective 0 4
        [Tok.id ".model", Tok.id (ModelToken.getD m ""), Tok.comma,
         Tok.id "OS_DOS", Tok.final] env mi).mi.ostype = OPSYS_OS2)) := by
  have hneg : ¬(m + 1 = MODEL_FLAT ∧ mi.curr_cpu &&& P_CPU_MASK < P_386) := by
    rintro ⟨h1, _⟩
    have h1n : m + 1 = 7 := h1
    omega
  have hrun1 := ModelDirective_run 0 4
    [Tok.id ".model", Tok.id (ModelToken.getD m ""), Tok.comma,
     Tok.id "OS_OS2", Tok.final] env mi m
    ⟨4, INIT_OS, LANG_NONE, 0, OPSYS_DOS⟩ hp
    (findToken_modelToken_getD m (by omega))
    (attrLoop_os_os2 (m + 1) (Tok.id ".model")
      (Tok.id (ModelToken.getD m ""))) rfl
  have hrun2 := ModelDirective_run 0 4
    [Tok.id ".model", Tok.id (ModelToken.getD m ""), Tok.comma,
     Tok.id "OS_DOS", Tok.final] env mi m
    ⟨4, INIT_OS, LANG_NONE, 0, OPSYS_OS2⟩ hp
    (findToken_modelToken_getD m (by omega))
    (attrLoop_os_dos (m + 1) (Tok.id ".model")
      (Tok.id (ModelToken.getD m ""))) rfl
  rw [hrun1, hrun2, if_neg hneg, if_neg hneg]
  refine ⟨⟨rfl, ?_⟩, ⟨rfl, ?_⟩⟩ <;>
    rw [SetModel_ostype, commitModel_ostype_set _ _ _ _ (by decide)]

/-- C10 witness: `.MODEL SMALL, OS_OS2` commits the DOS value and
`.MODEL SMALL, OS_DOS` commits the OS2 value. -/
theorem C10_os_value_swap_witness :
    ((ModelDirective 0 4
        [Tok.id ".model", Tok.id "SMALL", Tok.comma, Tok.id "OS_OS2",
         Tok.final] ⟨PASS_1, false, OFORMAT_COFF⟩
        ⟨MODEL_NONE, 0, 0, 1, 0x34, 0, 16, 0, 0, .dflt⟩).mi.ostype =
      OPSYS_DOS) ∧
    ((ModelDirective 0 4
        [Tok.id ".model", Tok.id "SMALL", Tok.comma, Tok.id "OS_DOS",
         Tok.final] ⟨PASS_1, false, OFORMAT_COFF⟩
        ⟨MODEL_NONE, 0, 0, 1, 0x34, 0, 16, 0, 0, .dflt⟩).mi.ostype =
      OPSYS_OS2) := by
  have h := C10_os_value_swap 1 (by decide) ⟨PASS_1, false, OFORMAT_COFF⟩
    ⟨MODEL_NONE, 0, 0, 1, 0x34, 0, 16, 0, 0, .dflt⟩ rfl
  exact ⟨h.1.2, h.2.2⟩

end CpuModel
